import Mathlib

/-!
Verification development for the multi-provider AI completion bridge
(`src-tauri/src/ai_bridge.rs` and the standalone copy
`tests-standalone/src/ai_bridge.rs`).

The Rust code is shallowly embedded: `serde_json::Value` becomes the
inductive `Json` below (with serde's lenient indexing semantics: indexing
a non-object / missing key yields `null`, `as_str` on a non-string yields
`None`); strings are Lean `String`s; the SSE stream decoder is embedded
over `List Char` (the chunks it receives are the results of
`String::from_utf8_lossy`, so a decoded chunk is a sequence of chars; the
concrete inputs exercised here are ASCII, where byte boundaries and char
boundaries coincide).  Fallible parsing returns `Option`.
-/

-- ── JSON value model (serde_json::Value) ────────────────────────────────

inductive Json where
  | jnull
  | jbool (b : Bool)
  | jnum (n : Int)
  | jstr (s : String)
  | jarr (items : List Json)
  | jobj (entries : List (String × Json))

/-- Lookup of a key in an object's field list: first match wins, missing
keys give `null` (serde's `Value::index` on `&str`). -/
def findField : List (String × Json) → String → Json
  | [], _ => Json.jnull
  | (k', v) :: rest, k => if k' = k then v else findField rest k

/-- Model of `json["key"]`: index into an object, `null` otherwise. -/
def getField : Json → String → Json
  | Json.jobj fields, k => findField fields k
  | _, _ => Json.jnull

/-- Model of `json[i]`: index into an array, `null` when out of range or
not an array. -/
def getIdx : Json → Nat → Json
  | Json.jarr xs, i => xs.getD i Json.jnull
  | _, _ => Json.jnull

/-- Model of `Value::as_str`: `some` only on JSON strings. -/
def asStr : Json → Option String
  | Json.jstr s => some s
  | _ => none

/-- Does a JSON object carry the given top-level field? -/
def fieldMem : List (String × Json) → String → Bool
  | [], _ => false
  | (k', _) :: rest, k => k' = k || fieldMem rest k

def hasField : Json → String → Bool
  | Json.jobj fields, k => fieldMem fields k
  | _, _ => false

def isStr : Json → Bool
  | Json.jstr _ => true
  | _ => false

def isArr : Json → Bool
  | Json.jarr _ => true
  | _ => false

def arrLen : Json → Nat
  | Json.jarr xs => xs.length
  | _ => 0

-- ── Substring machinery (for "message contains ..." properties) ─────────

/-- Boolean check: does `pat` occur as a leading segment of `l`? -/
def listIsPre : List Char → List Char → Bool
  | [], _ => true
  | _ :: _, [] => false
  | p :: ps, c :: cs => p = c && listIsPre ps cs

/-- Does `pat` occur as a contiguous segment anywhere inside `l`? -/
def subAt (pat : List Char) : List Char → Bool
  | [] => pat.isEmpty
  | c :: rest => listIsPre pat (c :: rest) || subAt pat rest

/-- `strHasSub s pat` holds when `pat` is a contiguous substring of `s`
(model of Rust's `str::contains`). -/
def strHasSub (s pat : String) : Bool := subAt pat.data s.data

-- ── Character-level trimming (str::trim over the ASCII whitespace set) ──

def trimChars (l : List Char) : List Char :=
  ((l.dropWhile Char.isWhitespace).reverse.dropWhile Char.isWhitespace).reverse

def strTrim (s : String) : String := String.mk (trimChars s.data)

-- ── Canonical request (struct AiRequest) ────────────────────────────────

structure AiRequest where
  api_key       : String
  prompt        : String
  system_prompt : Option String
  image_base64  : Option String
  context_files : Option (List String)
  model         : Option String
  max_tokens    : Option Nat

/-- Embedding of `build_prompt` (src-tauri/src/ai_bridge.rs:169-181):
start from the prompt; when context files are present and non-empty,
append the literal separator and then each chunk followed by `'\n'`. -/
def build_prompt (req : AiRequest) : String :=
  match req.context_files with
  | some files =>
    if files.isEmpty then req.prompt
    else files.foldl (fun acc chunk => acc ++ chunk ++ "\n")
      (req.prompt ++ "\n\n---\n**PROJECT CONTEXT (read-only)**\n")
  | none => req.prompt

/-- Claim-side description of the context section: each chunk in order,
each followed by exactly one newline. -/
def chunksText : List String → String
  | [] => ""
  | c :: rest => c ++ "\n" ++ chunksText rest

/-- Embedding of `validate_key` (tests-standalone/src/ai_bridge.rs:36-42). -/
def validate_key (key provider : String) : Except String Unit :=
  if key.isEmpty then Except.error (provider ++ " API key is required")
  else Except.ok ()

-- ── Key-mandating providers and their pre-network guards ────────────────

inductive Provider where
  | openai
  | claude
  | deepseek
  | openrouter
deriving DecidableEq

def provider_label : Provider → String
  | Provider.openai => "OpenAI"
  | Provider.claude => "Anthropic"
  | Provider.deepseek => "DeepSeek"
  | Provider.openrouter => "OpenRouter"

/-- Either the function returns an auth error before any I/O, or control
reaches the network block. -/
inductive CallOutcome where
  | authError (msg : String)
  | networkAttempt
deriving DecidableEq

/-- Embedding of the `if req.api_key.is_empty() { return Err(...) }` guard
at the top of each non-streaming `analyze_with_*` function
(src-tauri/src/ai_bridge.rs:217, 294, 365, 428). -/
def analyze_gate : Provider → String → CallOutcome
  | Provider.openai, key =>
    if key.isEmpty then CallOutcome.authError "OpenAI API key is required"
    else CallOutcome.networkAttempt
  | Provider.claude, key =>
    if key.isEmpty then CallOutcome.authError "Anthropic API key is required"
    else CallOutcome.networkAttempt
  | Provider.deepseek, key =>
    if key.isEmpty then CallOutcome.authError "DeepSeek API key is required"
    else CallOutcome.networkAttempt
  | Provider.openrouter, key =>
    if key.isEmpty then CallOutcome.authError "OpenRouter API key is required"
    else CallOutcome.networkAttempt

/-- Embedding of the same guards in `stream_openai_compat` / `stream_claude`
(src-tauri/src/ai_bridge.rs:667, 671, 675, 780). -/
def stream_gate : Provider → String → CallOutcome
  | Provider.openai, key =>
    if key.isEmpty then CallOutcome.authError "OpenAI API key required"
    else CallOutcome.networkAttempt
  | Provider.claude, key =>
    if key.isEmpty then CallOutcome.authError "Anthropic API key required"
    else CallOutcome.networkAttempt
  | Provider.deepseek, key =>
    if key.isEmpty then CallOutcome.authError "DeepSeek API key required"
    else CallOutcome.networkAttempt
  | Provider.openrouter, key =>
    if key.isEmpty then CallOutcome.authError "OpenRouter API key required"
    else CallOutcome.networkAttempt

-- ── OpenAI-compatible response text extraction ──────────────────────────

/-- The fixed annotation appended when only the reasoning field carried
text (src-tauri/src/ai_bridge.rs:196-199). -/
def reasoning_note : String :=
  "\n\n*— модель вернула только рассуждения (reasoning). Увеличьте лимит токенов для полного ответа. —*"

/-- Embedding of `extract_content` (src-tauri/src/ai_bridge.rs:187-202). -/
def extract_content (j : Json) : String :=
  let msg := getField (getIdx (getField j "choices") 0) "message"
  let content := (strTrim ((asStr (getField msg "content")).getD ""))
  if ¬ content.isEmpty then content
  else
    let reasoning := (strTrim ((asStr (getField msg "reasoning")).getD ""))
    if ¬ reasoning.isEmpty then reasoning ++ reasoning_note
    else ""

/-- Embedding of the Anthropic (non-streaming) response text path
`json["content"][0]["text"].as_str().unwrap_or("")`
(src-tauri/src/ai_bridge.rs:350). -/
def claude_extract (j : Json) : String :=
  (asStr (getField (getIdx (getField j "content") 0) "text")).getD ""

-- ── User-message content builders (wire payload shapes) ─────────────────

/-- A `{type:"text", text:...}` content block. -/
def textBlock (t : String) : Json :=
  Json.jobj [("type", Json.jstr "text"), ("text", Json.jstr t)]

/-- The image block sent by the non-streaming OpenAI adapter (carries
`detail:"high"`, src-tauri/src/ai_bridge.rs:241-247). -/
def oaImageBlock (b64 : String) : Json :=
  Json.jobj [("type", Json.jstr "image_url"),
            ("image_url", Json.jobj [("url", Json.jstr ("data:image/png;base64," ++ b64)),
                                    ("detail", Json.jstr "high")])]

/-- The image block sent by OpenRouter / local / all streaming paths
(no `detail` field). -/
def orImageBlock (b64 : String) : Json :=
  Json.jobj [("type", Json.jstr "image_url"),
            ("image_url", Json.jobj [("url", Json.jstr ("data:image/png;base64," ++ b64))])]

/-- User message content built by `analyze_with_openai`
(src-tauri/src/ai_bridge.rs:235-250): always an array, starting with the
text block, with the image block appended when a screenshot is present. -/
def openai_user_content (req : AiRequest) : Json :=
  let content := [textBlock (build_prompt req)]
  let content :=
    match req.image_base64 with
    | some b64 => content ++ [oaImageBlock b64]
    | none => content
  Json.jarr content

/-- User message content built by `analyze_with_deepseek`
(src-tauri/src/ai_bridge.rs:382-384): always a plain string — DeepSeek has
no vision support, the image is never consulted. -/
def deepseek_user_content (req : AiRequest) : Json :=
  Json.jstr (build_prompt req)

/-- User message content built by `analyze_with_openrouter`
(src-tauri/src/ai_bridge.rs:446-453). -/
def openrouter_user_content (req : AiRequest) : Json :=
  match req.image_base64 with
  | some b64 => Json.jarr [textBlock (build_prompt req), orImageBlock b64]
  | none => Json.jstr (build_prompt req)

/-- The user text of `analyze_with_local`: the system prompt, when
non-empty after trimming, is prepended to the prompt text
(src-tauri/src/ai_bridge.rs:535-545). -/
def local_user_text (req : AiRequest) : String :=
  match req.system_prompt with
  | some sys =>
    if (strTrim sys).isEmpty then build_prompt req
    else strTrim sys ++ "\n\n" ++ build_prompt req
  | none => build_prompt req

/-- User message content built by `analyze_with_local`
(src-tauri/src/ai_bridge.rs:552-559). -/
def local_user_content (req : AiRequest) : Json :=
  match req.image_base64 with
  | some b64 => Json.jarr [textBlock (local_user_text req), orImageBlock b64]
  | none => Json.jstr (local_user_text req)

/-- The user text of `stream_openai_compat`: for the local provider the
system prompt is prepended, for cloud providers it is sent as a separate
system message (src-tauri/src/ai_bridge.rs:713-718). -/
def stream_user_text (provider : String) (req : AiRequest) : String :=
  if provider = "local" then
    match req.system_prompt with
    | some sys =>
      if (strTrim sys).isEmpty then build_prompt req
      else strTrim sys ++ "\n\n" ++ build_prompt req
    | none => build_prompt req
  else build_prompt req

/-- User message content built by `stream_openai_compat`
(src-tauri/src/ai_bridge.rs:720-727), identical shape for all four
OpenAI-compatible providers. -/
def stream_user_content (provider : String) (req : AiRequest) : Json :=
  match req.image_base64 with
  | some b64 => Json.jarr [textBlock (stream_user_text provider req), orImageBlock b64]
  | none => Json.jstr (stream_user_text provider req)

-- ── Anthropic payload builders ──────────────────────────────────────────

/-- A Claude base64 image source block (src-tauri/src/ai_bridge.rs:306-309). -/
def claudeImageBlock (b64 : String) : Json :=
  Json.jobj [("type", Json.jstr "image"),
            ("source", Json.jobj [("type", Json.jstr "base64"),
                                 ("media_type", Json.jstr "image/png"),
                                 ("data", Json.jstr b64)])]

/-- The Anthropic user content array: image block pushed first when an
image is present, then the text block
(src-tauri/src/ai_bridge.rs:304-311 and 790-794). -/
def claude_content (req : AiRequest) : List Json :=
  let content : List Json := []
  let content :=
    match req.image_base64 with
    | some b64 => content ++ [claudeImageBlock b64]
    | none => content
  content ++ [Json.jobj [("type", Json.jstr "text"), ("text", Json.jstr (build_prompt req))]]

/-- The non-streaming Anthropic payload (src-tauri/src/ai_bridge.rs:313-323):
model, `max_tokens` (default 2048), a single user message; `system` is a
top-level field added only when the trimmed system prompt is non-empty. -/
def claude_body (req : AiRequest) : Json :=
  let sys := strTrim (req.system_prompt.getD "")
  let base : List (String × Json) :=
    [("model", Json.jstr (req.model.getD "claude-3-5-sonnet-20241022")),
     ("max_tokens", Json.jnum ((req.max_tokens.getD 2048 : Nat) : Int)),
     ("messages", Json.jarr [Json.jobj [("role", Json.jstr "user"),
                                      ("content", Json.jarr (claude_content req))]])]
  if sys.isEmpty then Json.jobj base
  else Json.jobj (base ++ [("system", Json.jstr sys)])

/-- The streaming Anthropic payload (src-tauri/src/ai_bridge.rs:796-802):
same shape plus `stream:true`, with `max_tokens` defaulting to 4096. -/
def claude_stream_body (req : AiRequest) : Json :=
  let sys := strTrim (req.system_prompt.getD "")
  let base : List (String × Json) :=
    [("model", Json.jstr (req.model.getD "claude-3-5-sonnet-20241022")),
     ("max_tokens", Json.jnum ((req.max_tokens.getD 4096 : Nat) : Int)),
     ("stream", Json.jbool true),
     ("messages", Json.jarr [Json.jobj [("role", Json.jstr "user"),
                                      ("content", Json.jarr (claude_content req))]])]
  if sys.isEmpty then Json.jobj base
  else Json.jobj (base ++ [("system", Json.jstr sys)])

/-- The list of `role` fields of the payload's messages. -/
def msgRoles (j : Json) : List Json :=
  match getField j "messages" with
  | Json.jarr ms => ms.map (fun m => getField m "role")
  | _ => []

-- ── HTTP error-message construction ─────────────────────────────────────

/-- Error message built by the non-streaming cloud adapters on a non-2xx
status (src-tauri/src/ai_bridge.rs:270-276, 338-344, 404-410, 476-482):
only `error.message` is consulted, with the literal fallback
"unknown error".  `label` is the provider name and `statusText` the
rendered HTTP status. -/
def cloud_error_message (label statusText : String) (j : Json) : String :=
  label ++ " " ++ statusText ++ ": " ++
    ((asStr (getField (getField j "error") "message")).getD "unknown error")

/-- Error message built by the streaming paths on a non-2xx status before
any body is decoded (src-tauri/src/ai_bridge.rs:748-749 and 812-813):
also only `error.message`, but with the shorter literal fallback
"unknown".  `label` is `req.provider` in `stream_openai_compat` and the
literal "Claude" in `stream_claude`. -/
def stream_error_message (label statusText : String) (j : Json) : String :=
  label ++ " " ++ statusText ++ ": " ++
    ((asStr (getField (getField j "error") "message")).getD "unknown")

/-- Detail extraction of `analyze_with_local` on a non-2xx status
(src-tauri/src/ai_bridge.rs:597-609): try `error.message`, then `message`,
then `detail`; otherwise the raw body truncated to 300 chars.  `parsed` is
the result of `serde_json::from_str(&body_text).ok()`. -/
def local_error_detail (parsed : Option Json) (body_text : String) : String :=
  match parsed with
  | some j =>
    match asStr (getField (getField j "error") "message") with
    | some s => s
    | none =>
      match asStr (getField j "message") with
      | some s => s
      | none =>
        match asStr (getField j "detail") with
        | some s => s
        | none => body_text.take 300
  | none => body_text.take 300

/-- The full local-provider error string (src-tauri/src/ai_bridge.rs:610). -/
def local_error_message (statusText : String) (parsed : Option Json) (body_text : String) : String :=
  "Local LLM " ++ statusText ++ ": " ++ local_error_detail parsed body_text

-- ── Local endpoint URL derivation ───────────────────────────────────────

/-- Model of `trim_end_matches('/')`: drop every trailing slash. -/
def trimEndSlash (s : String) : String :=
  String.mk ((s.data.reverse.dropWhile (fun c => c = '/')).reverse)

/-- The suffix strictly after the first occurrence of `sep` (non-empty),
`none` when `sep` does not occur: the tail used by `split(sep).nth(1)`. -/
def findSep (sep : List Char) : List Char → Option (List Char)
  | [] => none
  | c :: rest =>
    if listIsPre sep (c :: rest) then some ((c :: rest).drop sep.length)
    else findSep sep rest

/-- The segment up to the next occurrence of `sep` (or the whole list):
the second element produced by `split(sep)`. -/
def segTo (sep : List Char) : List Char → List Char
  | [] => []
  | c :: rest =>
    if listIsPre sep (c :: rest) then []
    else c :: segTo sep rest

/-- Does the part of the URL after "://" carry a path component?  Model of
`base.split("://").nth(1).map(|s| s.contains('/')).unwrap_or(false)`
(src-tauri/src/ai_bridge.rs:507 and 680): the segment between the first
"://" and the following "://" (or the end). -/
def hasPath (base : String) : Bool :=
  match findSep (':' :: '/' :: '/' :: []) base.data with
  | some rest => (segTo (':' :: '/' :: '/' :: []) rest).contains '/'
  | none => false

/-- Effective URL of `analyze_with_local`
(src-tauri/src/ai_bridge.rs:500-512): trim whitespace, trim trailing
slashes, then append the default path unless a path is already present. -/
def localUrl (base_url : String) : String :=
  let base := trimEndSlash (strTrim base_url)
  if hasPath base then base else base ++ "/v1/chat/completions"

/-- Effective URL of the `"local"` arm of `stream_openai_compat`
(src-tauri/src/ai_bridge.rs:678-682): note that here only trailing slashes
are trimmed — surrounding whitespace is kept. -/
def streamLocalUrl (local_url : Option String) : String :=
  let base := trimEndSlash (local_url.getD "http://127.0.0.1:1234")
  if hasPath base then base else base ++ "/v1/chat/completions"

/-- Transformation described by the claim: whitespace and trailing slashes
trimmed, then the default path appended iff no path component follows
"://".  (Stated from the claim's words, for comparison with the code.) -/
def claimedLocalUrl (u : String) : String :=
  let base := trimEndSlash (strTrim u)
  if hasPath base then base else base ++ "/v1/chat/completions"

-- ── Cancellation broadcaster (tokio::sync::watch over a generation) ─────

/-- The single-slot cancellation channel: holds the current generation.
The source stores a `u64`; the counter starts at 0 and moves only by `+1`
steps (`cancel_ai_request`, src-tauri/src/ai_bridge.rs:24-29), so it is
modelled as an unbounded `Nat`. -/
structure CancelChannel where
  value : Nat

def channelInit : CancelChannel := ⟨0⟩

/-- `cancel_ai_request`: read the current generation and send its
successor. -/
def advance (s : CancelChannel) : CancelChannel := ⟨s.value + 1⟩

def advanceN (n : Nat) (s : CancelChannel) : CancelChannel := ⟨s.value + n⟩

/-- A receiver handle: `watch::Sender::subscribe` marks the value current
at subscription time as already seen. -/
structure CancelReceiver where
  seen : Nat

def subscribe (s : CancelChannel) : CancelReceiver := ⟨s.value⟩

/-- Whether `Receiver::changed()` resolves: a value newer than the one the
handle has seen is available. -/
def changedReady (s : CancelChannel) (r : CancelReceiver) : Bool :=
  decide (r.seen < s.value)

-- ── Minimal JSON parser (serde_json::from_str on the stream payloads) ───

/-- Skip the JSON whitespace set (space, tab, newline, carriage return). -/
def skipWs : List Char → List Char
  | c :: cs =>
    if c = ' ' ∨ c = '\t' ∨ c = '\n' ∨ c = '\r' then skipWs cs else c :: cs
  | [] => []

/-- Decode one string escape character. `\u` escapes are not modelled (the
stream payloads under verification carry none); an unknown escape fails,
as in serde. -/
def escChar (c : Char) : Option Char :=
  if c = 'n' then some '\n'
  else if c = 't' then some '\t'
  else if c = 'r' then some '\r'
  else if c = '"' then some '"'
  else if c = '\\' then some '\\'
  else if c = '/' then some '/'
  else if c = 'b' then some (Char.ofNat 8)
  else if c = 'f' then some (Char.ofNat 12)
  else none

/-- Parse a string body after the opening quote, up to the closing quote. -/
def parseStrBody : List Char → Option (List Char × List Char)
  | [] => none
  | '"' :: rest => some ([], rest)
  | '\\' :: c :: rest => do
    let e ← escChar c
    let (s, r) ← parseStrBody rest
    pure (e :: s, r)
  | '\\' :: [] => none
  | c :: rest => (parseStrBody rest).map (fun p => (c :: p.1, p.2))

def digitsToNat (ds : List Char) : Nat :=
  ds.foldl (fun acc c => acc * 10 + (c.toNat - '0'.toNat)) 0

/-- Parse an integer literal.  Fractions and exponents are not modelled —
the decoded stream events carry none; a float therefore fails to parse. -/
def parseNum (cs : List Char) : Option (Json × List Char) :=
  let core : List Char → Option (Nat × List Char) := fun l =>
    let ds := l.takeWhile Char.isDigit
    let r := l.dropWhile Char.isDigit
    if ds.isEmpty then none
    else
      match r with
      | '.' :: _ => none
      | 'e' :: _ => none
      | 'E' :: _ => none
      | _ => some (digitsToNat ds, r)
  match cs with
  | '-' :: rest => (core rest).map (fun p => (Json.jnum (-(p.1 : Int)), p.2))
  | _ => (core cs).map (fun p => (Json.jnum (p.1 : Int), p.2))

mutual

/-- Parse one JSON value; `fuel` bounds the recursion depth (the caller
supplies the input length, which always suffices because every recursive
call consumes at least one character first). -/
def parseVal : Nat → List Char → Option (Json × List Char)
  | 0, _ => none
  | fuel + 1, cs =>
    match skipWs cs with
    | '"' :: rest => (parseStrBody rest).map (fun p => (Json.jstr (String.mk p.1), p.2))
    | '\x7b' :: rest =>
      (match skipWs rest with
       | '\x7d' :: r2 => some (Json.jobj [], r2)
       | r2 => (parseObjRest fuel r2).map (fun p => (Json.jobj p.1, p.2)))
    | '[' :: rest =>
      (match skipWs rest with
       | ']' :: r2 => some (Json.jarr [], r2)
       | r2 => (parseArrRest fuel r2).map (fun p => (Json.jarr p.1, p.2)))
    | 't' :: 'r' :: 'u' :: 'e' :: r => some (Json.jbool true, r)
    | 'f' :: 'a' :: 'l' :: 's' :: 'e' :: r => some (Json.jbool false, r)
    | 'n' :: 'u' :: 'l' :: 'l' :: r => some (Json.jnull, r)
    | c :: rest =>
      if c = '-' ∨ c.isDigit then parseNum (c :: rest) else none
    | [] => none

/-- Parse the members of a non-empty object, after the opening brace. -/
def parseObjRest : Nat → List Char → Option (List (String × Json) × List Char)
  | 0, _ => none
  | fuel + 1, cs =>
    match skipWs cs with
    | '"' :: rest =>
      (match parseStrBody rest with
       | some (k, r1) =>
         (match skipWs r1 with
          | ':' :: r2 =>
            (match parseVal fuel r2 with
             | some (v, r3) =>
               (match skipWs r3 with
                | ',' :: r4 => (parseObjRest fuel r4).map (fun p => ((String.mk k, v) :: p.1, p.2))
                | '\x7d' :: r4 => some ([(String.mk k, v)], r4)
                | _ => none)
             | none => none)
          | _ => none)
       | none => none)
    | _ => none

/-- Parse the items of a non-empty array, after the opening bracket. -/
def parseArrRest : Nat → List Char → Option (List Json × List Char)
  | 0, _ => none
  | fuel + 1, cs =>
    match parseVal fuel cs with
    | some (v, r) =>
      (match skipWs r with
       | ',' :: r2 => (parseArrRest fuel r2).map (fun p => (v :: p.1, p.2))
       | ']' :: r2 => some ([v], r2)
       | _ => none)
    | none => none

end

/-- Model of `serde_json::from_str::<Value>`: parse one value and require
that only whitespace remains. -/
def parseJson (s : List Char) : Option Json :=
  match parseVal (s.length + 1) s with
  | some (j, rest) => if (skipWs rest).isEmpty then some j else none
  | none => none

-- ── SSE stream decoder ──────────────────────────────────────────────────

/-- One decoded stream event; the terminal event carries the accumulated
full text. -/
inductive Ev where
  | token (s : List Char)
  | done (text : List Char)
deriving DecidableEq

/-- Split a buffer at its first newline: `buf.find('\n')` plus the two
slices `buf[..pos]` / `buf[pos+1..]`. -/
def splitNl : List Char → Option (List Char × List Char)
  | [] => none
  | c :: cs =>
    if c = '\n' then some ([], cs)
    else
      match splitNl cs with
      | none => none
      | some (l, r) => some (c :: l, r)

/-- `strip_prefix("data: ")` on a line. -/
def dropTag : List Char → Option (List Char)
  | 'd' :: 'a' :: 't' :: 'a' :: ':' :: ' ' :: rest => some rest
  | _ => none

def doneTag : List Char := ['[', 'D', 'O', 'N', 'E', ']']

/-- Per-line delta extraction of `stream_openai_compat`
(src-tauri/src/ai_bridge.rs:764-765): parse the payload as JSON and take
`choices[0].delta.content`; a parse failure or a non-string delta yields
the empty delta, which the loop skips. -/
def extractOa (d : List Char) : List Char :=
  match parseJson d with
  | some j =>
    ((asStr (getField (getField (getIdx (getField j "choices") 0) "delta") "content")).getD "").data
  | none => []

/-- Decoder state after some chunks: the unconsumed line buffer, the
accumulated full text, and the `Token` events emitted so far. -/
structure OaState where
  buf  : List Char
  full : List Char
  evs  : List Ev
deriving DecidableEq

/-- The inner `while let Some(pos) = buf.find('\n')` loop of
`stream_openai_compat` (src-tauri/src/ai_bridge.rs:759-772): consume
complete lines; a line is trimmed, must carry the `"data: "` tag, a
`"[DONE]"` payload exits the loop (leaving the rest of the buffer), a
non-empty extracted delta is accumulated and emitted.  `fuel` bounds the
iteration count; each iteration consumes at least one character, so the
buffer length suffices. -/
def drainOa (extract : List Char → List Char) : Nat → List Char → List Char → List Ev → OaState
  | 0, buf, full, evs => ⟨buf, full, evs⟩
  | fuel + 1, buf, full, evs =>
    match splitNl buf with
    | none => ⟨buf, full, evs⟩
    | some (l, r) =>
      match dropTag (trimChars l) with
      | none => drainOa extract fuel r full evs
      | some d =>
        if d = doneTag then ⟨r, full, evs⟩
        else
          let delta := extract d
          if delta.isEmpty then drainOa extract fuel r full evs
          else drainOa extract fuel r (full ++ delta) (evs ++ [Ev.token delta])

/-- Process one received chunk (src-tauri/src/ai_bridge.rs:756-772):
append its decoded characters to the buffer, then drain complete lines. -/
def oaChunk (extract : List Char → List Char) (st : OaState) (chunk : List Char) : OaState :=
  let buf := st.buf ++ chunk
  drainOa extract buf.length buf st.full st.evs

/-- Run the whole decoding loop over a chunk sequence and emit the
terminal done event carrying the accumulated text
(src-tauri/src/ai_bridge.rs:752-776). -/
def oaRun (extract : List Char → List Char) (chunks : List (List Char)) : List Ev :=
  let st := chunks.foldl (oaChunk extract) ⟨[], [], []⟩
  st.evs ++ [Ev.done st.full]

-- ── Helper lemmas ──────────────────────────────────────────────────────

theorem listIsPre_self_append (p r : List Char) : listIsPre p (p ++ r) = true := by
  induction p with
  | nil => rfl
  | cons c cs ih => simp [listIsPre, ih]

theorem subAt_nil_pat (l : List Char) : subAt [] l = true := by
  cases l with
  | nil => rfl
  | cons c cs => simp [subAt, listIsPre]

theorem subAt_append (pre pat post : List Char) :
    subAt pat (pre ++ (pat ++ post)) = true := by
  induction pre with
  | nil =>
    cases pat with
    | nil => simpa using subAt_nil_pat post
    | cons p ps =>
      simp only [subAt, List.append_nil, Bool.or_eq_true]
      exact Or.inl (listIsPre_self_append (p :: ps) post)
  | cons c cs ih => simp [subAt, ih]

theorem strHasSub_mid (a b c : String) : strHasSub (a ++ b ++ c) b = true := by
  have h : (a ++ b ++ c).data = a.data ++ (b.data ++ c.data) := by
    rw [String.data_append, String.data_append, List.append_assoc]
  simp only [strHasSub, h]
  exact subAt_append a.data b.data c.data


theorem foldl_chunks (files : List String) (init : String) :
    files.foldl (fun acc chunk => acc ++ chunk ++ "\n") init = init ++ chunksText files := by
  induction files generalizing init with
  | nil => simp [chunksText]
  | cons c rest ih =>
    simp only [List.foldl_cons, chunksText, ih (init ++ c ++ "\n")]
    rw [String.append_assoc, String.append_assoc, String.append_assoc]

/-- C3: `build_prompt` returns the prompt unchanged when context is empty
or absent, and otherwise appends the exact literal separator followed by
each context chunk in order, each followed by exactly one newline. -/
theorem c3_build_prompt_format (req : AiRequest) :
    build_prompt req =
      match req.context_files with
      | some (c :: rest) =>
        req.prompt ++ "\n\n---\n**PROJECT CONTEXT (read-only)**\n" ++ chunksText (c :: rest)
      | _ => req.prompt := by
  cases hf : req.context_files with
  | none => simp [build_prompt, hf]
  | some files =>
    cases files with
    | nil => simp [build_prompt, hf]
    | cons c rest =>
      simp only [build_prompt, hf, List.isEmpty_cons, Bool.false_eq_true, if_false]
      rw [foldl_chunks]

/-- C9: a receiver subscribed before any positive number of advances sees
the change; a receiver subscribed afterwards (with no further advance)
does not; the generation counter strictly increases with every advance. -/
theorem c9_cancellation_ordering (s : CancelChannel) (n : Nat) :
    (0 < n → changedReady (advanceN n s) (subscribe s) = true)
    ∧ changedReady (advanceN n s) (subscribe (advanceN n s)) = false
    ∧ (0 < n → s.value < (advanceN n s).value)
    ∧ advanceN (n + 1) s = advance (advanceN n s)
    ∧ advanceN 0 s = s := by
  refine ⟨fun h => ?_, ?_, fun h => ?_, ?_, rfl⟩
  · simp [changedReady, subscribe, advanceN]; omega
  · simp [changedReady, subscribe, advanceN]
  · simp [advanceN]; omega
  · simp [advanceN, advance]; omega

/-- Closed instance of `c9_cancellation_ordering` at the initial channel
and a single advance. -/
theorem c9_cancellation_ordering_witness :
    changedReady (advanceN 1 channelInit) (subscribe channelInit) = true
    ∧ channelInit.value < (advanceN 1 channelInit).value := by
  exact ⟨(c9_cancellation_ordering channelInit 1).1 (by decide),
         (c9_cancellation_ordering channelInit 1).2.2.1 (by decide)⟩

/-- C4: for each key-mandating provider, an empty key makes the guard
return an auth error — containing the provider label and the word
"required" — before the network block is reached (non-streaming and
streaming guards alike); a non-empty key passes the guard and satisfies
`validate_key`. -/
theorem c4_key_validation (p : Provider) (key : String) :
    (key.isEmpty = true →
      ∃ m, analyze_gate p key = CallOutcome.authError m
        ∧ strHasSub m (provider_label p) = true ∧ strHasSub m "required" = true)
    ∧ (key.isEmpty = true →
      ∃ m, stream_gate p key = CallOutcome.authError m
        ∧ strHasSub m (provider_label p) = true ∧ strHasSub m "required" = true)
    ∧ (key.isEmpty = false →
      analyze_gate p key = CallOutcome.networkAttempt
      ∧ stream_gate p key = CallOutcome.networkAttempt
      ∧ validate_key key (provider_label p) = Except.ok ()) := by
  refine ⟨fun h => ?_, fun h => ?_, fun h => ?_⟩
  · cases p with
    | openai => exact ⟨"OpenAI API key is required", by simp [analyze_gate, h], by decide, by decide⟩
    | claude => exact ⟨"Anthropic API key is required", by simp [analyze_gate, h], by decide, by decide⟩
    | deepseek => exact ⟨"DeepSeek API key is required", by simp [analyze_gate, h], by decide, by decide⟩
    | openrouter => exact ⟨"OpenRouter API key is required", by simp [analyze_gate, h], by decide, by decide⟩
  · cases p with
    | openai => exact ⟨"OpenAI API key required", by simp [stream_gate, h], by decide, by decide⟩
    | claude => exact ⟨"Anthropic API key required", by simp [stream_gate, h], by decide, by decide⟩
    | deepseek => exact ⟨"DeepSeek API key required", by simp [stream_gate, h], by decide, by decide⟩
    | openrouter => exact ⟨"OpenRouter API key required", by simp [stream_gate, h], by decide, by decide⟩
  · cases p <;> simp [analyze_gate, stream_gate, validate_key, h]

/-- Closed instance of `c4_key_validation`: the Anthropic guards at the
empty key and at a non-empty key. -/
theorem c4_key_validation_witness :
    (∃ m, analyze_gate Provider.claude "" = CallOutcome.authError m
      ∧ strHasSub m (provider_label Provider.claude) = true
      ∧ strHasSub m "required" = true)
    ∧ analyze_gate Provider.claude "sk-x" = CallOutcome.networkAttempt
    ∧ validate_key "sk-x" (provider_label Provider.claude) = Except.ok () := by
  refine ⟨(c4_key_validation Provider.claude "").1 (by decide), ?_, ?_⟩
  · exact ((c4_key_validation Provider.claude "sk-x").2.2 (by decide)).1
  · exact ((c4_key_validation Provider.claude "sk-x").2.2 (by decide)).2.2

/-- C10 counterexample: the streaming local URL derivation does not trim
surrounding whitespace — a base URL with a leading space keeps it, while
the transformation described by the claim removes it. -/
theorem c10_stream_url_counterexample :
    streamLocalUrl (some " http://h:1") ≠ claimedLocalUrl " http://h:1"
    ∧ streamLocalUrl (some " http://h:1") = " http://h:1/v1/chat/completions" := by
  exact ⟨by decide, by decide⟩

/-- C10 (amended): the non-streaming local URL is exactly the claimed
transformation (trim whitespace, drop trailing slashes, append
"/v1/chat/completions" iff the segment after "://" has no '/'); the
streaming variant drops only trailing slashes — it agrees with the
non-streaming one whenever the configured URL carries no surrounding
whitespace — and substitutes the default base URL when none is given. -/
theorem c10_local_url_derivation (u : String) :
    localUrl u = claimedLocalUrl u
    ∧ (strTrim u = u → streamLocalUrl (some u) = localUrl u)
    ∧ streamLocalUrl none = "http://127.0.0.1:1234/v1/chat/completions"
    ∧ (hasPath (trimEndSlash u) = false →
        streamLocalUrl (some u) = trimEndSlash u ++ "/v1/chat/completions")
    ∧ (hasPath (trimEndSlash u) = true → streamLocalUrl (some u) = trimEndSlash u) := by
  refine ⟨rfl, fun h => ?_, by decide, fun h => ?_, fun h => ?_⟩
  · simp only [streamLocalUrl, localUrl, Option.getD_some, h]
  · simp only [streamLocalUrl, Option.getD_some, h, Bool.false_eq_true, if_false]
  · simp only [streamLocalUrl, Option.getD_some, h, if_true]

/-- Closed instance of `c10_local_url_derivation` at a whitespace-free
base URL without a path and at one with a path. -/
theorem c10_local_url_derivation_witness :
    streamLocalUrl (some "http://h:1") = localUrl "http://h:1"
    ∧ streamLocalUrl (some "http://h:1") = trimEndSlash "http://h:1" ++ "/v1/chat/completions"
    ∧ streamLocalUrl (some "http://h:1/api/") = trimEndSlash "http://h:1/api/" := by
  refine ⟨(c10_local_url_derivation "http://h:1").2.1 (by decide),
          (c10_local_url_derivation "http://h:1").2.2.2.1 (by decide),
          (c10_local_url_derivation "http://h:1/api/").2.2.2.2 (by decide)⟩

/-- A text-only request (no image attached). -/
def textOnlyReq : AiRequest :=
  { api_key := "k", prompt := "hi", system_prompt := none, image_base64 := none,
    context_files := none, model := none, max_tokens := none }

/-- A request carrying a screenshot. -/
def imageReq : AiRequest :=
  { api_key := "k", prompt := "hi", system_prompt := none, image_base64 := some "IMG64",
    context_files := none, model := none, max_tokens := none }

/-- C5 counterexample: the non-streaming OpenAI adapter sends the array
content form even for a text-only request, and the non-streaming DeepSeek
adapter sends a plain string even when an image is attached — both
contradict the claimed "plain string iff no image" rule. -/
theorem c5_content_shape_counterexample :
    isStr (openai_user_content textOnlyReq) = false
    ∧ isArr (openai_user_content textOnlyReq) = true
    ∧ isStr (deepseek_user_content imageReq) = true := by
  exact ⟨rfl, rfl, rfl⟩

/-- C5 (amended): OpenRouter and local non-streaming payloads and all
streaming OpenAI-compatible payloads use a plain string exactly when no
image is attached and the two-element text/image array exactly when one
is; the non-streaming OpenAI adapter always sends the array form (a
one-element text array when text-only), and the non-streaming DeepSeek
adapter always sends a plain string, ignoring any image. -/
theorem c5_user_content_shapes (req : AiRequest) (p : String) :
    (isStr (deepseek_user_content req) = true)
    ∧ (isArr (openai_user_content req) = true ∧ isStr (openai_user_content req) = false)
    ∧ (req.image_base64 = none →
        arrLen (openai_user_content req) = 1
        ∧ getIdx (openai_user_content req) 0 = textBlock (build_prompt req)
        ∧ isStr (openrouter_user_content req) = true
        ∧ isStr (local_user_content req) = true
        ∧ isStr (stream_user_content p req) = true)
    ∧ (∀ b, req.image_base64 = some b →
        arrLen (openai_user_content req) = 2
        ∧ getIdx (openai_user_content req) 0 = textBlock (build_prompt req)
        ∧ getIdx (openai_user_content req) 1 = oaImageBlock b
        ∧ openrouter_user_content req = Json.jarr [textBlock (build_prompt req), orImageBlock b]
        ∧ local_user_content req = Json.jarr [textBlock (local_user_text req), orImageBlock b]
        ∧ stream_user_content p req = Json.jarr [textBlock (stream_user_text p req), orImageBlock b]) := by
  refine ⟨rfl, ⟨?_, ?_⟩, fun h => ?_, fun b h => ?_⟩
  · cases hi : req.image_base64 <;> simp [openai_user_content, hi, isArr]
  · cases hi : req.image_base64 <;> simp [openai_user_content, hi, isStr]
  · refine ⟨?_, ?_, ?_, ?_, ?_⟩ <;>
      simp [openai_user_content, openrouter_user_content, local_user_content,
            stream_user_content, h, arrLen, getIdx, isStr]
  · refine ⟨?_, ?_, ?_, ?_, ?_, ?_⟩ <;>
      simp [openai_user_content, openrouter_user_content, local_user_content,
            stream_user_content, h, arrLen, getIdx]

/-- Closed instance of `c5_user_content_shapes` at a text-only request
and at a request with an image. -/
theorem c5_user_content_shapes_witness :
    isStr (openrouter_user_content textOnlyReq) = true
    ∧ arrLen (openai_user_content textOnlyReq) = 1
    ∧ arrLen (openai_user_content imageReq) = 2
    ∧ openrouter_user_content imageReq
        = Json.jarr [textBlock (build_prompt imageReq), orImageBlock "IMG64"] := by
  refine ⟨((c5_user_content_shapes textOnlyReq "openai").2.2.1 rfl).2.2.1,
          ((c5_user_content_shapes textOnlyReq "openai").2.2.1 rfl).1,
          ((c5_user_content_shapes imageReq "openai").2.2.2 "IMG64" rfl).1,
          ((c5_user_content_shapes imageReq "openai").2.2.2 "IMG64" rfl).2.2.2.1⟩

/-- C6: the Anthropic payloads carry a single user-role message (never a
system role message); the top-level `system` field is present exactly when
the trimmed system prompt is non-empty; the content array puts the image
block (when present) before the text block; and `max_tokens` is always
present, defaulting to 2048 non-streaming and 4096 streaming. -/
theorem c6_claude_payload (req : AiRequest) :
    (msgRoles (claude_body req) = [Json.jstr "user"]
      ∧ msgRoles (claude_stream_body req) = [Json.jstr "user"])
    ∧ (hasField (claude_body req) "system" = !(strTrim (req.system_prompt.getD "")).isEmpty
      ∧ hasField (claude_stream_body req) "system" = !(strTrim (req.system_prompt.getD "")).isEmpty)
    ∧ (req.image_base64 = none → claude_content req = [textBlock (build_prompt req)])
    ∧ (∀ b, req.image_base64 = some b →
        claude_content req = [claudeImageBlock b, textBlock (build_prompt req)])
    ∧ (getField (claude_body req) "max_tokens" = Json.jnum ((req.max_tokens.getD 2048 : Nat) : Int)
      ∧ getField (claude_stream_body req) "max_tokens" = Json.jnum ((req.max_tokens.getD 4096 : Nat) : Int)
      ∧ hasField (claude_body req) "max_tokens" = true
      ∧ hasField (claude_stream_body req) "max_tokens" = true) := by
  refine ⟨⟨?_, ?_⟩, ⟨?_, ?_⟩,
          fun h => by simp [claude_content, h, textBlock],
          fun b h => by simp [claude_content, h, textBlock],
          ?_, ?_, ?_, ?_⟩
  all_goals
    cases hs : (strTrim (req.system_prompt.getD "")).isEmpty <;>
      simp [claude_body, claude_stream_body, msgRoles, hasField, fieldMem,
            getField, findField, hs]

/-- Closed instance of `c6_claude_payload` at a request without an image
and at a request with one. -/
theorem c6_claude_payload_witness :
    claude_content textOnlyReq = [textBlock (build_prompt textOnlyReq)]
    ∧ claude_content imageReq = [claudeImageBlock "IMG64", textBlock (build_prompt imageReq)] := by
  exact ⟨(c6_claude_payload textOnlyReq).2.2.1 rfl,
         (c6_claude_payload imageReq).2.2.2.1 "IMG64" rfl⟩

/-- An OpenAI-compatible completion body carrying both a `content` and a
`reasoning` field in `choices[0].message`. -/
def mkOaResp (c r : String) : Json :=
  Json.jobj [("choices", Json.jarr [Json.jobj [("message",
    Json.jobj [("content", Json.jstr c), ("reasoning", Json.jstr r)])]])]

/-- An OpenAI-compatible completion body with the `content` field missing
entirely. -/
def mkOaRespNoContent (r : String) : Json :=
  Json.jobj [("choices", Json.jarr [Json.jobj [("message",
    Json.jobj [("reasoning", Json.jstr r)])]])]

/-- An Anthropic completion body; a `reasoning` field is planted in it to
show the Anthropic parser never consults one. -/
def mkClaudeResp (c r : String) : Json :=
  Json.jobj [("content", Json.jarr [Json.jobj [("type", Json.jstr "text"),
                                            ("text", Json.jstr c)]]),
            ("model", Json.jstr "claude-3-5-sonnet-20241022"),
            ("reasoning", Json.jstr r)]

/-- C7: when the trimmed message content is non-empty the extracted text
is that content (the reasoning field is ignored — the result does not
depend on it); when content is empty or missing and the trimmed reasoning
is non-empty, the extracted text is the reasoning followed by the fixed
reasoning-only annotation; the Anthropic parser never consults a
reasoning field. -/
theorem c7_extract_content_fallback (c r : String) :
    ((strTrim c).isEmpty = false → extract_content (mkOaResp c r) = strTrim c)
    ∧ ((strTrim c).isEmpty = true → (strTrim r).isEmpty = false →
        extract_content (mkOaResp c r) = strTrim r ++ reasoning_note)
    ∧ ((strTrim r).isEmpty = false →
        extract_content (mkOaRespNoContent r) = strTrim r ++ reasoning_note)
    ∧ claude_extract (mkClaudeResp c r) = c := by
  have e1 : extract_content (mkOaResp c r)
      = if ¬ (strTrim c).isEmpty then strTrim c
        else if ¬ (strTrim r).isEmpty then strTrim r ++ reasoning_note else "" := rfl
  have e2 : extract_content (mkOaRespNoContent r)
      = if ¬ (strTrim r).isEmpty then strTrim r ++ reasoning_note else "" := rfl
  refine ⟨fun h1 => ?_, fun h1 h2 => ?_, fun h2 => ?_, rfl⟩
  · rw [e1, if_pos (by simp [h1])]
  · rw [e1, if_neg (by simp [h1]), if_pos (by simp [h2])]
  · rw [e2, if_pos (by simp [h2])]

/-- Closed instance of `c7_extract_content_fallback`: content wins when
present, the reasoning fallback fires when it is blank. -/
theorem c7_extract_content_fallback_witness :
    extract_content (mkOaResp "answer" "ignored") = strTrim "answer"
    ∧ extract_content (mkOaResp "" "because X") = strTrim "because X" ++ reasoning_note
    ∧ extract_content (mkOaRespNoContent "why") = strTrim "why" ++ reasoning_note := by
  exact ⟨(c7_extract_content_fallback "answer" "ignored").1 (by decide),
         (c7_extract_content_fallback "" "because X").2.1 (by decide) (by decide),
         (c7_extract_content_fallback "x" "why").2.2.1 (by decide)⟩

/-- An error body whose message sits in the top-level `message` field
(no `error.message`). -/
def oopsBody : Json := Json.jobj [("message", Json.jstr "oops")]

/-- An error body in the OpenAI shape `{error:{message:...}}`. -/
def rateLimitedBody : Json :=
  Json.jobj [("error", Json.jobj [("message", Json.jstr "rate limited")])]

/-- C8 counterexample: a cloud adapter (here OpenAI) answers a non-2xx
response whose body is `{"message":"oops"}` with the literal "unknown
error" — the top-level `message` field is never consulted, contradicting
the claimed try-in-order extraction for every provider; the local adapter
applied to the same body does extract "oops". -/
theorem c8_cloud_error_counterexample :
    strHasSub (cloud_error_message "OpenAI" "429 Too Many Requests" oopsBody) "oops" = false
    ∧ cloud_error_message "OpenAI" "429 Too Many Requests" oopsBody
        = "OpenAI" ++ " " ++ "429 Too Many Requests" ++ ": " ++ "unknown error"
    ∧ local_error_detail (some oopsBody) "" = "oops" := by
  exact ⟨by decide, rfl, rfl⟩

/-- C8 (amended): every produced error message carries the status text;
the try-in-order extraction (`error.message`, then `message`, then
`detail`, then the body truncated to 300 chars) is performed by the local
adapter only; the non-streaming cloud adapters consult only
`error.message` and fall back to the literal "unknown error"; the
streaming paths also consult only `error.message` but fall back to the
shorter literal "unknown". -/
theorem c8_error_extraction (st body label : String) (parsed : Option Json) (j : Json) (s : String) :
    strHasSub (local_error_message st parsed body) st = true
    ∧ (asStr (getField (getField j "error") "message") = some s →
        local_error_detail (some j) body = s)
    ∧ (asStr (getField (getField j "error") "message") = none →
        asStr (getField j "message") = some s → local_error_detail (some j) body = s)
    ∧ (asStr (getField (getField j "error") "message") = none →
        asStr (getField j "message") = none →
        asStr (getField j "detail") = some s → local_error_detail (some j) body = s)
    ∧ (asStr (getField (getField j "error") "message") = none →
        asStr (getField j "message") = none →
        asStr (getField j "detail") = none → local_error_detail (some j) body = body.take 300)
    ∧ local_error_detail none body = body.take 300
    ∧ strHasSub (cloud_error_message label st j) st = true
    ∧ (asStr (getField (getField j "error") "message") = some s →
        cloud_error_message label st j = label ++ " " ++ st ++ ": " ++ s)
    ∧ (asStr (getField (getField j "error") "message") = none →
        cloud_error_message label st j = label ++ " " ++ st ++ ": " ++ "unknown error")
    ∧ strHasSub (stream_error_message label st j) st = true
    ∧ (asStr (getField (getField j "error") "message") = some s →
        stream_error_message label st j = label ++ " " ++ st ++ ": " ++ s)
    ∧ (asStr (getField (getField j "error") "message") = none →
        stream_error_message label st j = label ++ " " ++ st ++ ": " ++ "unknown") := by
  refine ⟨?_, fun h1 => by simp [local_error_detail, h1],
          fun h1 h2 => by simp [local_error_detail, h1, h2],
          fun h1 h2 h3 => by simp [local_error_detail, h1, h2, h3],
          fun h1 h2 h3 => by simp [local_error_detail, h1, h2, h3],
          rfl, ?_,
          fun h1 => by simp [cloud_error_message, h1],
          fun h1 => by simp [cloud_error_message, h1], ?_,
          fun h1 => by simp [stream_error_message, h1],
          fun h1 => by simp [stream_error_message, h1]⟩
  · have e : local_error_message st parsed body
        = ("Local LLM " ++ st) ++ (": " ++ local_error_detail parsed body) :=
      String.append_assoc ("Local LLM " ++ st) ": " (local_error_detail parsed body)
    rw [e]
    exact strHasSub_mid "Local LLM " st (": " ++ local_error_detail parsed body)
  · have e : cloud_error_message label st j
        = ((label ++ " ") ++ st) ++ (": " ++
            ((asStr (getField (getField j "error") "message")).getD "unknown error")) :=
      String.append_assoc ((label ++ " ") ++ st) ": " _
    rw [e]
    exact strHasSub_mid (label ++ " ") st _
  · have e : stream_error_message label st j
        = ((label ++ " ") ++ st) ++ (": " ++
            ((asStr (getField (getField j "error") "message")).getD "unknown")) :=
      String.append_assoc ((label ++ " ") ++ st) ": " _
    rw [e]
    exact strHasSub_mid (label ++ " ") st _

/-- Closed instance of `c8_error_extraction` at the spec's 429 scenario
and at bodies exercising the fallback chain. -/
theorem c8_error_extraction_witness :
    local_error_detail (some rateLimitedBody) "" = "rate limited"
    ∧ cloud_error_message "OpenAI" "429 Too Many Requests" rateLimitedBody
        = "OpenAI" ++ " " ++ "429 Too Many Requests" ++ ": " ++ "rate limited"
    ∧ local_error_detail (some oopsBody) "raw" = "oops"
    ∧ local_error_detail (some (Json.jobj [("detail", Json.jstr "bad request")])) "raw" = "bad request"
    ∧ local_error_detail (some (Json.jobj [])) "raw body text" = "raw body text".take 300
    ∧ stream_error_message "openai" "429 Too Many Requests" rateLimitedBody
        = "openai" ++ " " ++ "429 Too Many Requests" ++ ": " ++ "rate limited"
    ∧ stream_error_message "Claude" "500 Internal Server Error" oopsBody
        = "Claude" ++ " " ++ "500 Internal Server Error" ++ ": " ++ "unknown" := by
  refine ⟨(c8_error_extraction "429 Too Many Requests" "" "OpenAI" none rateLimitedBody "rate limited").2.1 rfl,
          (c8_error_extraction "429 Too Many Requests" "" "OpenAI" none rateLimitedBody "rate limited").2.2.2.2.2.2.2.1 rfl,
          (c8_error_extraction "s" "raw" "l" none oopsBody "oops").2.2.1 rfl rfl,
          (c8_error_extraction "s" "raw" "l" none (Json.jobj [("detail", Json.jstr "bad request")]) "bad request").2.2.2.1 rfl rfl rfl,
          (c8_error_extraction "s" "raw body text" "l" none (Json.jobj []) "x").2.2.2.2.1 rfl rfl rfl,
          (c8_error_extraction "429 Too Many Requests" "" "openai" none rateLimitedBody "rate limited").2.2.2.2.2.2.2.2.2.2.1 rfl,
          (c8_error_extraction "500 Internal Server Error" "" "Claude" none oopsBody "x").2.2.2.2.2.2.2.2.2.2.2 rfl⟩

set_option maxRecDepth 1000000

/-- The C1 byte sequence: two delta lines carrying "He" and "llo" in
`choices[0].delta.content`, then the `[DONE]` sentinel line. -/
def c1Input : List Char :=
  ("data: \x7b\"choices\":[\x7b\"delta\":\x7b\"content\":\"He\"\x7d\x7d]\x7d\ndata: \x7b\"choices\":[\x7b\"delta\":\x7b\"content\":\"llo\"\x7d\x7d]\x7d\ndata: [DONE]\n").data

/-- C1: decoding the reference stream as a single chunk and decoding it
split at every single byte boundary produce the identical event sequence
Token "He", Token "llo", Done "Hello". -/
theorem c1_stream_rechunking_invariant :
    oaRun extractOa [c1Input]
      = [Ev.token "He".data, Ev.token "llo".data, Ev.done "Hello".data]
    ∧ oaRun extractOa (c1Input.map (fun c => [c]))
      = [Ev.token "He".data, Ev.token "llo".data, Ev.done "Hello".data] := by
  exact ⟨by decide, by decide⟩

/-- C2 counterexample: the `[DONE]` check only breaks the inner
line-draining loop of the current chunk — after a chunk containing
`data: [DONE]`, a later chunk with a well-formed delta payload still
produces a Token event ("X" here), contradicting the claim that no
further tokens follow the sentinel. -/
theorem c2_token_after_done_counterexample :
    oaRun extractOa
        [("data: [DONE]\n").data,
         ("data: \x7b\"choices\":[\x7b\"delta\":\x7b\"content\":\"X\"\x7d\x7d]\x7d\n").data]
      = [Ev.token "X".data, Ev.done "X".data] := by
  decide

theorem splitNl_append (l r : List Char) (h : '\n' ∉ l) :
    splitNl (l ++ '\n' :: r) = some (l, r) := by
  induction l with
  | nil => simp [splitNl]
  | cons c cs ih =>
    have hc : ¬ c = '\n' := fun e => h (e ▸ List.mem_cons_self c cs)
    have hcs : '\n' ∉ cs := fun m => h (List.mem_cons_of_mem c m)
    simp [splitNl, hc, ih hcs]

/-- C2 (amended): in the OpenAI-compatible decoder, a complete line not
carrying the `"data: "` tag after trimming produces no event and
processing continues; a line whose payload is not valid JSON is silently
skipped and the stream is not terminated; a `[DONE]` payload stops the
draining of the lines buffered so far — but only for the current chunk:
the remainder of the buffer is kept and lines arriving in later chunks
are decoded again (see the counterexample), so tokens may still follow. -/
theorem c2_decoder_line_handling (l r full : List Char) (evs : List Ev) (fuel : Nat)
    (hnl : '\n' ∉ l) :
    (dropTag (trimChars l) = none →
      drainOa extractOa (fuel + 1) (l ++ '\n' :: r) full evs
        = drainOa extractOa fuel r full evs)
    ∧ (∀ d, dropTag (trimChars l) = some d → ¬ d = doneTag → parseJson d = none →
      drainOa extractOa (fuel + 1) (l ++ '\n' :: r) full evs
        = drainOa extractOa fuel r full evs)
    ∧ (dropTag (trimChars l) = some doneTag →
      drainOa extractOa (fuel + 1) (l ++ '\n' :: r) full evs
        = ⟨r, full, evs⟩) := by
  refine ⟨fun h => ?_, fun d h hd hp => ?_, fun h => ?_⟩
  · simp [drainOa, splitNl_append l r hnl, h]
  · have he : extractOa d = [] := by simp [extractOa, hp]
    simp [drainOa, splitNl_append l r hnl, h, hd, he]
  · simp [drainOa, splitNl_append l r hnl, h]

/-- Closed instance of `c2_decoder_line_handling`: an untagged line, a
tagged line with a malformed JSON payload, and the `[DONE]` line. -/
theorem c2_decoder_line_handling_witness :
    (drainOa extractOa 1 (("hello").data ++ '\n' :: []) [] []
      = drainOa extractOa 0 [] [] [])
    ∧ (drainOa extractOa 1 (("data: \x7boops").data ++ '\n' :: []) [] []
      = drainOa extractOa 0 [] [] [])
    ∧ (drainOa extractOa 1 (("data: [DONE]").data ++ '\n' :: ("rest").data) [] []
      = ⟨("rest").data, [], []⟩) := by
  refine ⟨(c2_decoder_line_handling ("hello").data [] [] [] 0 (by decide)).1 (by decide),
          (c2_decoder_line_handling ("data: \x7boops").data [] [] [] 0 (by decide)).2.1
            ("\x7boops").data rfl (by decide) rfl,
          (c2_decoder_line_handling ("data: [DONE]").data ("rest").data [] [] 0 (by decide)).2.2
            (by decide)⟩
